import Mathlib

/-!
Verification of the template-population, AI-response-validation and
text-extraction logic of `construction_cost_automation.py`
(class `ConstructionCostAutomation`).

The worksheet model embeds the openpyxl cell grid as an association list
from (row, column) to cell values; `populate_template` is embedded as the
pure cell-level transformation performed between loading the copied
template and saving it.  Python strings are Lean `String`s and all string
scanning (substring search, lower-casing, stripping) is done on their
character lists, mirroring the ASCII behaviour of the Python operations
used by the script.  Python floats are idealised as exact rationals plus
the special values nan / inf / -inf; IEEE rounding and overflow are
abstracted away.
-/

/-- Model of a Python float value: a finite rational or one of the special
values produced by `float("nan")`, `float("inf")`, `float("-inf")`. -/
inductive FloatVal where
  | finite (q : ℚ)
  | nan
  | inf
  | neginf
deriving DecidableEq, Repr

/-- Value held by a worksheet cell as exposed by openpyxl's `cell.value`:
`none` for an empty cell, a string (formulas are strings starting with
`=` since the workbook is loaded with `data_only=False`), a number, or a
boolean. -/
inductive CellVal where
  | none
  | str (s : String)
  | num (x : FloatVal)
  | bool (b : Bool)
deriving DecidableEq, Repr

/-- A structured line item as built by `parse_with_ai` and consumed by
`populate_template`: the dict `{'line_item': ..., 'amount': ...}`. -/
structure LineItem where
  description : String
  amount : FloatVal
deriving DecidableEq, Repr

/-- Worksheet: the populated cells of the active sheet, keyed by
(row, column), both 1-indexed.  Lookup takes the first entry with the
given key; absent keys read as `CellVal.none`. -/
structure Worksheet where
  cells : List ((Nat × Nat) × CellVal)
deriving DecidableEq, Repr

/-- `worksheet.cell(row=r, column=c).value`. -/
def cellValue (ws : Worksheet) (r c : Nat) : CellVal :=
  match ws.cells.find? (fun e => e.1 == (r, c)) with
  | some e => e.2
  | Option.none => CellVal.none

/-- `worksheet.cell(row=r, column=c).value = v`. -/
def setCell (ws : Worksheet) (r c : Nat) (v : CellVal) : Worksheet :=
  ⟨((r, c), v) :: ws.cells⟩

/-- `worksheet.max_row`: the largest row index of a cell holding a value
(1 for a sheet with no populated cells, as in openpyxl). -/
def maxRow (ws : Worksheet) : Nat :=
  ((ws.cells.filter (fun e => decide (e.2 ≠ CellVal.none))).map
    (fun e => e.1.1)).foldl max 1

/-- List-of-characters test that `n` occurs as a contiguous run at the
head of `h`. -/
def isPre : List Char → List Char → Bool
  | [], _ => true
  | _ :: _, [] => false
  | a :: as, b :: bs => a == b && isPre as bs

/-- List-of-characters substring occurrence test. -/
def listContains (h n : List Char) : Bool :=
  match h with
  | [] => n.isEmpty
  | _ :: t => isPre n h || listContains t n

/-- Python's `needle in hay` on strings. -/
def strContains (hay needle : String) : Bool :=
  listContains hay.data needle.data

/-- Python's `str.lower()` (ASCII range, which is all the script relies
on). -/
def lowerStr (s : String) : String :=
  ⟨s.data.map Char.toLower⟩

/-- Whitespace characters stripped by Python's `str.strip()` (ASCII
range). -/
def isPySpace (c : Char) : Bool :=
  c == ' ' || c == '\t' || c == '\n' || c == '\r' || c == '\x0b' || c == '\x0c'

/-- Python's `str.strip()` with no argument. -/
def pyStrip (s : String) : String :=
  ⟨((s.data.dropWhile isPySpace).reverse.dropWhile isPySpace).reverse⟩

/-- Python truthiness of a cell value (`if cell_value:`). -/
def pyTruthy : CellVal → Bool
  | CellVal.none => false
  | CellVal.str s => !s.isEmpty
  | CellVal.num x => decide (x ≠ FloatVal.finite 0)
  | CellVal.bool b => b

/-- Predicate of the first header scan (line 285-286 of the source):
`cell_value and isinstance(cell_value, str)` and `"Line Item" in
cell_value`, case-sensitive. -/
def exactMatch (v : CellVal) : Bool :=
  match v with
  | CellVal.str s => !s.isEmpty && strContains s "Line Item"
  | _ => false

/-- Predicate of the fallback header scan (lines 301-303):
`cell_lower = cell_value.lower()` and `"line" in cell_lower and "item" in
cell_lower`. -/
def fallbackMatch (v : CellVal) : Bool :=
  match v with
  | CellVal.str s => !s.isEmpty && strContains (lowerStr s) "line"
      && strContains (lowerStr s) "item"
  | _ => false

/-- Row-major enumeration of `for row in range(1, nr+1): for col in
range(1, nc+1)`. -/
def grid (nr nc : Nat) : List (Nat × Nat) :=
  (List.range' 1 nr).flatMap (fun r => (List.range' 1 nc).map (fun c => (r, c)))

/-- Positions visited by the exact scan: rows 1-10, columns 1-10. -/
def gridExact : List (Nat × Nat) := grid 10 10

/-- Positions visited by the fallback scan: rows 1-10, columns 1-5. -/
def gridFallback : List (Nat × Nat) := grid 10 5

/-- The exact "Line Item" scan (lines 282-293): first match in row-major
order. -/
def exactScan (ws : Worksheet) : Option (Nat × Nat) :=
  gridExact.find? (fun p => exactMatch (cellValue ws p.1 p.2))

/-- The broader case-insensitive scan (lines 296-310). -/
def fallbackScan (ws : Worksheet) : Option (Nat × Nat) :=
  gridFallback.find? (fun p => fallbackMatch (cellValue ws p.1 p.2))

/-- Combined header search: the exact scan, then the fallback scan if
nothing matched. -/
def headerScan (ws : Worksheet) : Option (Nat × Nat) :=
  match exactScan ws with
  | some rc => some rc
  | Option.none => fallbackScan ws

/-- `line_item_col_idx` after the scans and the final default of line
326-328 (column 1 when nothing matched). -/
def descCol (ws : Worksheet) : Nat :=
  match headerScan ws with
  | some rc => rc.2
  | Option.none => 1

/-- `header_row`: set only by a successful scan. -/
def headerRow (ws : Worksheet) : Option Nat :=
  (headerScan ws).map (fun rc => rc.1)

/-- `amount_col_idx`: unconditionally column 2 (line 314). -/
def amount_col_idx : Nat := 2

/-- `start_row = (header_row + 1) if header_row else 2` (line 338). -/
def startRow (ws : Worksheet) : Nat :=
  match headerRow ws with
  | some h => h + 1
  | Option.none => 2

/-- The rows visited by `for row in range(start_row, worksheet.max_row +
20)` (line 340). -/
def scanRange (ws : Worksheet) : List Nat :=
  List.range' (startRow ws) (maxRow ws + 20 - startRow ws)

/-- `cell_value is None or str(cell_value).strip() == ''` (line 342):
only `None` and whitespace-only strings qualify, since `str()` of a
number or boolean strips to a non-empty word. -/
def isEmptyCell (v : CellVal) : Bool :=
  match v with
  | CellVal.none => true
  | CellVal.str s => (pyStrip s).isEmpty
  | CellVal.num _ => false
  | CellVal.bool _ => false

/-- The downward first-empty-row search of lines 340-344. -/
def scanResult (ws : Worksheet) : Option Nat :=
  (scanRange ws).find? (fun r => isEmptyCell (cellValue ws r (descCol ws)))

/-- `insert_row`, including the `worksheet.max_row + 1` fallback of lines
346-347. -/
def insertRow (ws : Worksheet) : Nat :=
  match scanResult ws with
  | some r => r
  | Option.none => maxRow ws + 1

/-- The write loop of lines 352-361: for each item, the description is
written at the current row in the description column and then the amount
is written at the same row in the hard-coded column 2; the row advances
by one per item. -/
def writeItems (ws : Worksheet) (r col : Nat) : List LineItem → Worksheet
  | [] => ws
  | item :: rest =>
      writeItems
        (setCell (setCell ws r col (CellVal.str item.description))
          r 2 (CellVal.num item.amount))
        (r + 1) col rest

/-- Cell-level model of `populate_template`: header/column discovery,
insertion-row search, then the write loop, on the worksheet loaded from
the copied template. -/
def populate_template (ws : Worksheet) (line_items : List LineItem) : Worksheet :=
  writeItems ws (insertRow ws) (descCol ws) line_items

/-- A Python value as produced by `json.loads`: `None`, booleans,
integers, floats, strings, lists and string-keyed dicts. -/
inductive PyVal where
  | none
  | bool (b : Bool)
  | int (n : Int)
  | float (x : FloatVal)
  | str (s : String)
  | list (items : List PyVal)
  | dict (entries : List (String × PyVal))

/-- Python dict key lookup (`item['k']`); `Option.none` models a missing
key, i.e. `'k' in item` being false. -/
def dictFind (d : List (String × PyVal)) (k : String) : Option PyVal :=
  match d.find? (fun kv => kv.1 == k) with
  | some kv => some kv.2
  | Option.none => Option.none

/-- Numeric value of a run of decimal digits. -/
def digitsVal (cs : List Char) : Nat :=
  cs.foldl (fun a c => a * 10 + (c.toNat - '0'.toNat)) 0

/-- ASCII lower-casing of a character list. -/
def lowerChars (cs : List Char) : List Char :=
  cs.map Char.toLower

/-- Python's `repr()` of a float.  The special values render as Python
prints them; for finite values the decimal rendering of non-integral
floats is approximated by a fraction (never exercised by the script,
whose cell values and JSON amounts are handled as numbers, not via
`str`). -/
def floatRepr : FloatVal → String
  | FloatVal.nan => "nan"
  | FloatVal.inf => "inf"
  | FloatVal.neginf => "-inf"
  | FloatVal.finite q =>
      if q.den = 1 then toString q.num ++ ".0"
      else toString q.num ++ "/" ++ toString q.den

mutual

/-- Python's `repr()` over JSON-decoded values (container rendering kept
simple: no escaping inside strings). -/
def pyRepr : PyVal → String
  | PyVal.none => "None"
  | PyVal.bool true => "True"
  | PyVal.bool false => "False"
  | PyVal.int n => toString n
  | PyVal.float x => floatRepr x
  | PyVal.str s => "\x27" ++ s ++ "\x27"
  | PyVal.list l => "[" ++ pyReprList l ++ "]"
  | PyVal.dict d => "\x7b" ++ pyReprDict d ++ "\x7d"

/-- Comma-joined `repr`s of list elements. -/
def pyReprList : List PyVal → String
  | [] => ""
  | [v] => pyRepr v
  | v :: rest => pyRepr v ++ ", " ++ pyReprList rest

/-- Comma-joined `repr`s of dict entries. -/
def pyReprDict : List (String × PyVal) → String
  | [] => ""
  | [(k, v)] => "\x27" ++ k ++ "\x27: " ++ pyRepr v
  | (k, v) :: rest => "\x27" ++ k ++ "\x27: " ++ pyRepr v ++ ", " ++ pyReprDict rest

end

/-- Python's `str()`. -/
def pyStr : PyVal → String
  | PyVal.str s => s
  | v => pyRepr v

/-- The rational value `sign * (ip . fp) * 10 ^ (esign * ed)` denoted by
the parts of a float literal. -/
def floatOfParts (sign : Int) (ip fp : List Char) (esign : Int) (ed : List Char) : ℚ :=
  let mant : ℚ := (digitsVal ip : ℚ) + (digitsVal fp : ℚ) / ((10 : ℚ) ^ fp.length)
  (sign : ℚ) * mant * ((10 : ℚ) ^ (esign * (digitsVal ed : Int)))

/-- Python's `float()` applied to a string: optional surrounding
whitespace and sign, then `nan`, `inf`/`infinity` (case-insensitive) or a
decimal literal `digits [. digits] [(e|E) [sign] digits]` with at least
one mantissa digit.  `Option.none` models the `ValueError` raised on
anything else.  (Underscored literals and IEEE rounding/overflow are not
modelled; the values are exact rationals.) -/
def parsePyFloat (s : String) : Option FloatVal :=
  let cs := (pyStrip s).data
  let signRest : Int × List Char :=
    match cs with
    | '+' :: r => (1, r)
    | '-' :: r => (-1, r)
    | r => (1, r)
  let sign := signRest.1
  let rest := signRest.2
  if lowerChars rest = "nan".data then some FloatVal.nan
  else if lowerChars rest = "inf".data ∨ lowerChars rest = "infinity".data then
    some (if sign = 1 then FloatVal.inf else FloatVal.neginf)
  else
    let ip := rest.takeWhile Char.isDigit
    let r1 := rest.dropWhile Char.isDigit
    let fpR2 : List Char × List Char :=
      match r1 with
      | '.' :: r => (r.takeWhile Char.isDigit, r.dropWhile Char.isDigit)
      | _ => ([], r1)
    let fp := fpR2.1
    let r2 := fpR2.2
    if ip.length + fp.length = 0 then Option.none
    else
      match r2 with
      | [] => some (FloatVal.finite (floatOfParts sign ip fp 1 []))
      | e :: r3 =>
          if e == 'e' || e == 'E' then
            let esignR4 : Int × List Char :=
              match r3 with
              | '+' :: r => (1, r)
              | '-' :: r => (-1, r)
              | r => (1, r)
            let ed := esignR4.2.takeWhile Char.isDigit
            let r5 := esignR4.2.dropWhile Char.isDigit
            if ed.isEmpty || !r5.isEmpty then Option.none
            else some (FloatVal.finite (floatOfParts sign ip fp esignR4.1 ed))
          else Option.none

/-- Python's `float()` (line 218).  `ValueError` (bad string) and
`TypeError` (`None` or a container) are both caught by the source's
`except (ValueError, TypeError)`, so failure is a single `Option.none`. -/
def pyFloat : PyVal → Option FloatVal
  | PyVal.int n => some (FloatVal.finite (n : ℚ))
  | PyVal.float x => some x
  | PyVal.bool b => some (FloatVal.finite (if b then 1 else 0))
  | PyVal.str s => parsePyFloat s
  | PyVal.none => Option.none
  | PyVal.list _ => Option.none
  | PyVal.dict _ => Option.none

/-- The per-entry validation of lines 214-225: the entry must be a dict
with both `'line_item'` and `'amount'` keys and a coercible amount;
otherwise it is skipped.  A kept entry carries
`str(item['line_item']).strip()` and `float(item['amount'])`. -/
def validateItem (item : PyVal) : Option LineItem :=
  match item with
  | PyVal.dict d =>
      match dictFind d "line_item", dictFind d "amount" with
      | some li, some am =>
          match pyFloat am with
          | some x => some ⟨pyStrip (pyStr li), x⟩
          | Option.none => Option.none
      | _, _ => Option.none
  | _ => Option.none

/-- `isinstance(parsed_data, list)`. -/
def isListVal : PyVal → Bool
  | PyVal.list _ => true
  | _ => false

/-- Model of the response-validation stage of `parse_with_ai` (lines
210-237).  The external `generate_content` call, the code-fence
stripping and `json.loads` form the AI-service boundary; their combined
outcome is the input, with `Option.none` standing for a
`json.JSONDecodeError` (caught at line 231, returning `[]`).  A parsed
non-list value also yields `[]` (line 227-229). -/
def parse_with_ai (loaded : Option PyVal) : List LineItem :=
  match loaded with
  | Option.none => []
  | some (PyVal.list items) => items.filterMap validateItem
  | some _ => []

/-- Exceptions surfaced by the extraction paths. -/
inductive PyExc where
  | fileNotFoundError
  | valueError
  | importError
  | nameError
deriving DecidableEq

/-- Environment of `extract_text_from_file`: which libraries imported
successfully and what each external call would return (`Except.error`
standing for an exception raised by the library call). -/
structure ExtractEnv where
  fileExists : Bool
  pymupdfAvailable : Bool
  pypdf2Available : Bool
  pytesseractAvailable : Bool
  fitzResult : Except Unit String
  pypdf2Result : Except Unit String
  ocrResult : Except String String
  excelResult : Except Unit String

/-- Split a character list on a separator character. -/
def splitOnChar (sep : Char) : List Char → List (List Char)
  | [] => [[]]
  | c :: t =>
      let r := splitOnChar sep t
      if c == sep then [] :: r
      else
        match r with
        | [] => [[c]]
        | h :: t2 => (c :: h) :: t2

/-- `pathlib.Path(p).name`: the final non-empty path component (POSIX
separators). -/
def pathName (p : String) : String :=
  ⟨((splitOnChar '/' p.data).filter (fun c => !c.isEmpty)).getLastD []⟩

/-- Index of the last occurrence of a character. -/
def rlastIdx (c : Char) : List Char → Option Nat
  | [] => Option.none
  | a :: t =>
      match rlastIdx c t with
      | some i => some (i + 1)
      | Option.none => if a == c then some 0 else Option.none

/-- `pathlib.Path(p).suffix`: the last dotted extension of the name,
empty for a leading or trailing dot, mirroring CPython. -/
def pathSuffix (p : String) : String :=
  let n := (pathName p).data
  match rlastIdx '.' n with
  | some i => if 0 < i ∧ i + 1 < n.length then ⟨n.drop i⟩ else ""
  | Option.none => ""

/-- The image extensions of line 83. -/
def imageExts : List String := [".png", ".jpg", ".jpeg", ".bmp", ".tiff"]

/-- The spreadsheet extensions of line 85. -/
def excelExts : List String := [".xlsx", ".xls"]

/-- The non-empty placeholder returned when pytesseract is missing
(line 127). -/
def ocrUnavailableMsg (n : String) : String :=
  "[OCR NOT AVAILABLE] Image file: " ++ n ++
    ". Please convert to PDF or use text-based documents for processing."

/-- The non-empty placeholder returned when OCR raises (line 136). -/
def ocrFailedMsg (n e : String) : String :=
  "[OCR FAILED] Image file: " ++ n ++ ". Error: " ++ e

/-- `_extract_from_pdf` (lines 93-120).  When PyMuPDF imported
successfully the module never binds `PYPDF2_AVAILABLE` (lines 13-22), so
reaching line 107 after a failed PyMuPDF extraction raises `NameError`;
with PyMuPDF absent, a failed or unavailable PyPDF2 path falls through
to `raise ImportError` (line 120). -/
def extract_from_pdf (env : ExtractEnv) : Except PyExc String :=
  if env.pymupdfAvailable then
    match env.fitzResult with
    | Except.ok t => Except.ok t
    | Except.error _ => Except.error PyExc.nameError
  else if env.pypdf2Available then
    match env.pypdf2Result with
    | Except.ok t => Except.ok t
    | Except.error _ => Except.error PyExc.importError
  else Except.error PyExc.importError

/-- `_extract_from_image` (lines 122-136): never raises; missing
pytesseract or a failing OCR call yield non-empty placeholder text. -/
def extract_from_image (env : ExtractEnv) (name : String) : String :=
  if !env.pytesseractAvailable then ocrUnavailableMsg name
  else
    match env.ocrResult with
    | Except.ok t => t
    | Except.error e => ocrFailedMsg name e

/-- `_extract_from_excel` (lines 138-154): any pandas failure is caught
and yields the empty string. -/
def extract_from_excel (env : ExtractEnv) : String :=
  match env.excelResult with
  | Except.ok t => t
  | Except.error _ => ""

/-- `extract_text_from_file` (lines 63-91).  The `FileNotFoundError` of
line 76 is raised before the `try` block and therefore propagates; the
dispatch on the lower-cased suffix and everything it raises (including
the unsupported-type `ValueError`) is wrapped by the
`except Exception` of line 89, which returns `""`. -/
def extract_text_from_file (env : ExtractEnv) (file_path : String) : Except PyExc String :=
  if !env.fileExists then Except.error PyExc.fileNotFoundError
  else
    let ext := lowerStr (pathSuffix file_path)
    let body : Except PyExc String :=
      if ext == ".pdf" then extract_from_pdf env
      else if imageExts.contains ext then
        Except.ok (extract_from_image env (pathName file_path))
      else if excelExts.contains ext then
        Except.ok (extract_from_excel env)
      else Except.error PyExc.valueError
    match body with
    | Except.ok t => Except.ok t
    | Except.error _ => Except.ok ""

/-- The LineItem invariant asserted by the specification (§3), stated
from the spec's words for comparison with what `parse_with_ai` actually
produces: finite non-negative amount, non-empty stripped description. -/
def specLineItemOk (it : LineItem) : Bool :=
  (match it.amount with
   | FloatVal.finite q => decide (0 ≤ q)
   | _ => false) && !(pyStrip it.description).isEmpty

/-- Template with the exact header in cell (1,1) and an amount-like
header elsewhere. -/
def wsC1 : Worksheet :=
  ⟨[((1, 1), CellVal.str "Line Item"), ((1, 5), CellVal.str "Amount")]⟩

/-- A single line item. -/
def itemsC1 : List LineItem := [⟨"PERMITS", FloatVal.finite 10000⟩]

/-- The end-to-end scenario template: header "Line Item" at (1,1), no
data. -/
def wsC2 : Worksheet := ⟨[((1, 1), CellVal.str "Line Item")]⟩

/-- The end-to-end scenario input list. -/
def itemsC2 : List LineItem :=
  [⟨"PERMITS", FloatVal.finite 10000⟩, ⟨"EXCAVATION", FloatVal.finite 15000⟩]

/-- Template whose "Line Item" header sits in column 2, making the
description column coincide with the forced amount column. -/
def wsC2b : Worksheet := ⟨[((1, 2), CellVal.str "Line Item")]⟩

/-- Template with only a case-insensitive header match, at (2,3). -/
def wsC3 : Worksheet := ⟨[((2, 3), CellVal.str "Total line items")]⟩

/-- Template with no header match anywhere. -/
def wsC3b : Worksheet := ⟨[((1, 1), CellVal.str "Budget")]⟩

/-- Template with a header, one populated data row and a whitespace-only
cell below it. -/
def wsC4 : Worksheet :=
  ⟨[((1, 1), CellVal.str "Line Item"), ((2, 1), CellVal.str "FOUNDATION"),
    ((3, 1), CellVal.str "  ")]⟩

/-- Template whose column-2 cell in the first data row holds a formula:
the insertion-row search looks only at the description column, so the
amount write lands on this populated cell. -/
def wsC5 : Worksheet :=
  ⟨[((1, 1), CellVal.str "Line Item"), ((2, 2), CellVal.str "=SUM(B3:B10)")]⟩

/-- A single line item. -/
def itemsC5 : List LineItem := [⟨"PERMITS", FloatVal.finite 10000⟩]

/-- A decoded AI response whose only entry has a whitespace description
and a negative amount. -/
def respC7 : PyVal :=
  PyVal.list [PyVal.dict [("line_item", PyVal.str "   "), ("amount", PyVal.int (-5))]]

/-- A valid response entry. -/
def entryGood : PyVal :=
  PyVal.dict [("line_item", PyVal.str "PERMITS"),
    ("amount", PyVal.float (FloatVal.finite 10000))]

/-- The dict entries of a response item whose amount fails coercion. -/
def entriesNA : List (String × PyVal) :=
  [("line_item", PyVal.str "X"), ("amount", PyVal.str "N/A")]

/-- A second valid response entry. -/
def entryGood2 : PyVal :=
  PyVal.dict [("line_item", PyVal.str "EXCAVATION"),
    ("amount", PyVal.float (FloatVal.finite 15000))]

/-- Environment for a path that does not exist. -/
def envC9 : ExtractEnv :=
  ⟨false, false, false, false, Except.error (), Except.error (),
    Except.error "boom", Except.error ()⟩

/-- Environment for an existing file with no extraction library
available. -/
def envC9ok : ExtractEnv :=
  ⟨true, false, false, false, Except.error (), Except.error (),
    Except.error "boom", Except.error ()⟩

/-- Row-major order on cell positions: the order in which the nested
`for row ... for col ...` loops visit them. -/
def rmLt (a b : Nat × Nat) : Prop :=
  a.1 < b.1 ∨ (a.1 = b.1 ∧ a.2 < b.2)

instance : DecidableRel rmLt := fun a b =>
  inferInstanceAs (Decidable (a.1 < b.1 ∨ (a.1 = b.1 ∧ a.2 < b.2)))

theorem find?_eq_some_of_first {α : Type} (p : α → Bool) (lt : α → α → Prop)
    (l : List α) (hsort : l.Pairwise lt) (x : α) (hx : x ∈ l) (hpx : p x = true)
    (hbefore : ∀ y ∈ l, lt y x → p y = false) : l.find? p = some x := by
  induction l with
  | nil => cases hx
  | cons a t ih =>
    rcases List.pairwise_cons.mp hsort with ⟨ha, ht⟩
    rcases List.mem_cons.mp hx with h | h
    · subst h
      exact List.find?_cons_of_pos _ hpx
    · have hpa : p a = false :=
        hbefore a (List.mem_cons_self a t) (ha x h)
      rw [List.find?_cons_of_neg _ (by simp [hpa])]
      exact ih ht h (fun y hy hlt => hbefore y (List.mem_cons_of_mem a hy) hlt)

theorem le_foldl_max_init (l : List Nat) (i : Nat) : i ≤ l.foldl max i := by
  induction l generalizing i with
  | nil => simp
  | cons a t ih => exact le_trans (le_max_left i a) (ih (max i a))

theorem le_foldl_max_of_mem (l : List Nat) (i a : Nat) (h : a ∈ l) :
    a ≤ l.foldl max i := by
  induction l generalizing i with
  | nil => cases h
  | cons b t ih =>
    rcases List.mem_cons.mp h with h | h
    · subst h
      exact le_trans (le_max_right i a) (le_foldl_max_init t (max i a))
    · exact ih (max i b) h

theorem one_le_maxRow (ws : Worksheet) : 1 ≤ maxRow ws :=
  le_foldl_max_init _ 1

theorem row_le_maxRow_of_ne_none (ws : Worksheet) (e : (Nat × Nat) × CellVal)
    (he : e ∈ ws.cells) (hv : e.2 ≠ CellVal.none) : e.1.1 ≤ maxRow ws := by
  apply le_foldl_max_of_mem
  exact List.mem_map_of_mem _
    (List.mem_filter.mpr ⟨he, decide_eq_true hv⟩)

theorem cellValue_eq_none_of_gt (ws : Worksheet) (r c : Nat)
    (h : maxRow ws < r) : cellValue ws r c = CellVal.none := by
  unfold cellValue
  cases hf : ws.cells.find? (fun e => e.1 == (r, c)) with
  | none => rfl
  | some e =>
    have hmem := List.mem_of_find?_eq_some hf
    have hkey : e.1 = (r, c) := by
      have := List.find?_some hf
      simpa using this
    by_cases hv : e.2 = CellVal.none
    · simpa using hv
    · exfalso
      have hle := row_le_maxRow_of_ne_none ws e hmem hv
      rw [hkey] at hle
      omega

theorem row_le_maxRow_of_cell (ws : Worksheet) (r c : Nat)
    (h : cellValue ws r c ≠ CellVal.none) : r ≤ maxRow ws := by
  by_contra hlt
  push_neg at hlt
  exact h (cellValue_eq_none_of_gt ws r c hlt)

theorem headerScan_cell_ne_none (ws : Worksheet) (rc : Nat × Nat)
    (h : headerScan ws = some rc) : cellValue ws rc.1 rc.2 ≠ CellVal.none := by
  unfold headerScan at h
  cases hex : exactScan ws with
  | some rc2 =>
    rw [hex] at h
    cases h
    have hp := List.find?_some hex
    intro hc
    rw [hc] at hp
    simp [exactMatch] at hp
  | none =>
    rw [hex] at h
    have hp := List.find?_some h
    intro hc
    rw [hc] at hp
    simp [fallbackMatch] at hp

theorem headerRow_le_maxRow (ws : Worksheet) (h : Nat)
    (hh : headerRow ws = some h) : h ≤ maxRow ws := by
  unfold headerRow at hh
  cases hs : headerScan ws with
  | none => rw [hs] at hh; cases hh
  | some rc =>
    rw [hs] at hh
    simp at hh
    subst hh
    exact row_le_maxRow_of_cell ws rc.1 rc.2 (headerScan_cell_ne_none ws rc hs)

theorem startRow_le (ws : Worksheet) : startRow ws ≤ maxRow ws + 1 := by
  cases hh : headerRow ws with
  | none =>
    have e : startRow ws = 2 := by simp [startRow, hh]
    have := one_le_maxRow ws
    omega
  | some h =>
    have e : startRow ws = h + 1 := by simp [startRow, hh]
    have := headerRow_le_maxRow ws h hh
    omega

theorem pairwise_lt_range1 (s n : Nat) : (List.range' s n).Pairwise (· < ·) := by
  induction n generalizing s with
  | zero => simp
  | succ n ih =>
    rw [List.range'_succ]
    refine List.pairwise_cons.mpr ⟨?_, ih (s + 1)⟩
    intro b hb
    have := List.mem_range'_1.mp hb
    omega

theorem cellValue_setCell_self (ws : Worksheet) (r c : Nat) (v : CellVal) :
    cellValue (setCell ws r c v) r c = v := by
  simp [cellValue, setCell, List.find?]

theorem cellValue_setCell_ne (ws : Worksheet) (r c : Nat) (v : CellVal)
    (r' c' : Nat) (h : (r', c') ≠ (r, c)) :
    cellValue (setCell ws r c v) r' c' = cellValue ws r' c' := by
  have hb : ((r, c) == (r', c')) = false := by
    simpa using (Ne.symm h)
  simp [cellValue, setCell, List.find?, hb]

theorem writeItems_frame (items : List LineItem) :
    ∀ (ws : Worksheet) (r col rr cc : Nat),
    (∀ i < items.length, ¬(rr = r + i ∧ (cc = col ∨ cc = 2))) →
    cellValue (writeItems ws r col items) rr cc = cellValue ws rr cc := by
  induction items with
  | nil => intro ws r col rr cc _; rfl
  | cons it rest ih =>
    intro ws r col rr cc h
    have h0 := h 0 (by simp)
    show cellValue
      (writeItems (setCell (setCell ws r col (CellVal.str it.description))
        r 2 (CellVal.num it.amount)) (r + 1) col rest) rr cc = _
    rw [ih _ (r + 1) col rr cc ?_]
    · rw [cellValue_setCell_ne _ _ _ _ _ _ ?_, cellValue_setCell_ne _ _ _ _ _ _ ?_]
      · intro heq
        rw [Prod.mk.injEq] at heq
        exact h0 ⟨by omega, Or.inl heq.2⟩
      · intro heq
        rw [Prod.mk.injEq] at heq
        exact h0 ⟨by omega, Or.inr heq.2⟩
    · intro i hi hand
      rcases hand with ⟨h1, h2⟩
      exact h (i + 1) (by simpa using Nat.succ_lt_succ hi)
        ⟨by omega, h2⟩

theorem writeItems_amount (items : List LineItem) :
    ∀ (ws : Worksheet) (r col i : Nat) (h : i < items.length),
    cellValue (writeItems ws r col items) (r + i) 2 =
      CellVal.num (items.get ⟨i, h⟩).amount := by
  induction items with
  | nil => intro ws r col i h; exact absurd h (by simp)
  | cons it rest ih =>
    intro ws r col i h
    cases i with
    | zero =>
      show cellValue
        (writeItems (setCell (setCell ws r col (CellVal.str it.description))
          r 2 (CellVal.num it.amount)) (r + 1) col rest) (r + 0) 2 = _
      rw [writeItems_frame rest _ (r + 1) col (r + 0) 2 ?_]
      · have : r + 0 = r := by omega
        rw [this, cellValue_setCell_self]
        rfl
      · intro i _ hand
        exact absurd hand.1 (by omega)
    | succ n =>
      have hr : r + (n + 1) = (r + 1) + n := by omega
      rw [hr]
      exact ih _ (r + 1) col n (by simp only [List.length_cons] at h; omega)

theorem writeItems_desc (items : List LineItem) :
    ∀ (ws : Worksheet) (r col i : Nat) (h : i < items.length), col ≠ 2 →
    cellValue (writeItems ws r col items) (r + i) col =
      CellVal.str (items.get ⟨i, h⟩).description := by
  induction items with
  | nil => intro ws r col i h _; exact absurd h (by simp)
  | cons it rest ih =>
    intro ws r col i h hcol
    cases i with
    | zero =>
      show cellValue
        (writeItems (setCell (setCell ws r col (CellVal.str it.description))
          r 2 (CellVal.num it.amount)) (r + 1) col rest) (r + 0) col = _
      rw [writeItems_frame rest _ (r + 1) col (r + 0) col ?_]
      · have : r + 0 = r := by omega
        rw [this, cellValue_setCell_ne _ _ _ _ _ _ ?_, cellValue_setCell_self]
        · rfl
        · intro heq
          rw [Prod.mk.injEq] at heq
          exact hcol heq.2
      · intro i _ hand
        exact absurd hand.1 (by omega)
    | succ n =>
      have hr : r + (n + 1) = (r + 1) + n := by omega
      rw [hr]
      exact ih _ (r + 1) col n (by simp only [List.length_cons] at h; omega) hcol

example : descCol ⟨[((1, 1), CellVal.str "Line Item")]⟩ = 1 := by decide

example : headerRow ⟨[((2, 3), CellVal.str "line items")]⟩ = some 2 := by decide

example : insertRow ⟨[((1, 1), CellVal.str "Line Item")]⟩ = 2 := by decide

example : parsePyFloat "N/A" = Option.none := by decide

example : parsePyFloat " -12.5e1 " = some (FloatVal.finite (-125)) := by
  simp [parsePyFloat, pyStrip, isPySpace, lowerChars, floatOfParts, digitsVal]
  norm_num

example : pathSuffix "dir/Cost break down-Prem.PDF" = ".PDF" := by decide

example : pathName "up/scan.png" = "scan.png" := by decide

theorem gridExact_pairwise : gridExact.Pairwise rmLt := by decide

theorem gridFallback_pairwise : gridFallback.Pairwise rmLt := by decide

/-- C1: if a cell of the 1-indexed 10×10 block holds a string containing
the case-sensitive substring "Line Item" and no row-major-earlier cell
of the block does, that cell's column becomes the description column and
its row the header row; and independently of any header, every amount is
written to column 2 of its row. -/
theorem populate_template_exact_header_and_amount_col (ws : Worksheet) (r c : Nat) :
    ((r, c) ∈ gridExact → exactMatch (cellValue ws r c) = true →
      (∀ q ∈ gridExact, rmLt q (r, c) → exactMatch (cellValue ws q.1 q.2) = false) →
      descCol ws = c ∧ headerRow ws = some r) ∧
    (∀ (items : List LineItem) (i : Nat) (h : i < items.length),
      cellValue (populate_template ws items) (insertRow ws + i) 2 =
        CellVal.num (items.get ⟨i, h⟩).amount) := by
  constructor
  · intro hmem hmatch hfirst
    have hscan : exactScan ws = some (r, c) :=
      find?_eq_some_of_first _ rmLt gridExact gridExact_pairwise (r, c) hmem hmatch hfirst
    exact ⟨by simp [descCol, headerScan, hscan], by simp [headerRow, headerScan, hscan]⟩
  · intro items i h
    exact writeItems_amount items ws (insertRow ws) (descCol ws) i h

theorem populate_template_exact_header_and_amount_col_witness :
    descCol wsC1 = 1 ∧ headerRow wsC1 = some 1 ∧
    cellValue (populate_template wsC1 itemsC1) (insertRow wsC1 + 0) 2 =
      CellVal.num (FloatVal.finite 10000) := by
  have h := populate_template_exact_header_and_amount_col wsC1 1 1
  obtain ⟨h1, h2⟩ := h.1 (by decide) (by decide) (by decide)
  exact ⟨h1, h2, h.2 itemsC1 0 (by decide)⟩

/-- C3: when no cell of the 10×10 block matches the exact scan, the first
row-major cell of the 10×5 block whose lower-cased text contains both
"line" and "item" fixes the description column and header row; and when
that scan finds nothing either, the description column defaults to 1
with no header row recorded. -/
theorem populate_template_fallback_and_default (ws : Worksheet)
    (hno : ∀ q ∈ gridExact, exactMatch (cellValue ws q.1 q.2) = false) :
    (∀ r c, (r, c) ∈ gridFallback → fallbackMatch (cellValue ws r c) = true →
      (∀ q ∈ gridFallback, rmLt q (r, c) →
        fallbackMatch (cellValue ws q.1 q.2) = false) →
      descCol ws = c ∧ headerRow ws = some r) ∧
    ((∀ q ∈ gridFallback, fallbackMatch (cellValue ws q.1 q.2) = false) →
      descCol ws = 1 ∧ headerRow ws = Option.none) := by
  have hex : exactScan ws = Option.none :=
    List.find?_eq_none.mpr (fun q hq => by simp [hno q hq])
  constructor
  · intro r c hmem hmatch hfirst
    have hfb : fallbackScan ws = some (r, c) :=
      find?_eq_some_of_first _ rmLt gridFallback gridFallback_pairwise (r, c)
        hmem hmatch hfirst
    exact ⟨by simp [descCol, headerScan, hex, hfb],
      by simp [headerRow, headerScan, hex, hfb]⟩
  · intro hnofb
    have hfb : fallbackScan ws = Option.none :=
      List.find?_eq_none.mpr (fun q hq => by simp [hnofb q hq])
    exact ⟨by simp [descCol, headerScan, hex, hfb],
      by simp [headerRow, headerScan, hex, hfb]⟩

theorem populate_template_fallback_and_default_witness :
    (descCol wsC3 = 3 ∧ headerRow wsC3 = some 2) ∧
    (descCol wsC3b = 1 ∧ headerRow wsC3b = Option.none) := by
  constructor
  · exact (populate_template_fallback_and_default wsC3 (by decide)).1 2 3
      (by decide) (by decide) (by decide)
  · exact (populate_template_fallback_and_default wsC3b (by decide)).2 (by decide)

/-- C4: the insertion-row policy: the downward scan starts one row below
a discovered header row (else at row 2), visits only the description
column over the rows of `scanRange`, stops at the first empty or
whitespace-only cell, and falls back to max_row + 1 when the whole range
is non-empty. -/
theorem populate_template_insert_row_rule (ws : Worksheet) (r : Nat) :
    ((∀ h, headerRow ws = some h → startRow ws = h + 1) ∧
      (headerRow ws = Option.none → startRow ws = 2)) ∧
    (r ∈ scanRange ws → isEmptyCell (cellValue ws r (descCol ws)) = true →
      (∀ r2 ∈ scanRange ws, r2 < r →
        isEmptyCell (cellValue ws r2 (descCol ws)) = false) →
      insertRow ws = r) ∧
    (scanResult ws = Option.none → insertRow ws = maxRow ws + 1) := by
  refine ⟨⟨?_, ?_⟩, ?_, ?_⟩
  · intro h hh
    simp [startRow, hh]
  · intro hh
    simp [startRow, hh]
  · intro hmem hempty hfirst
    have hres : scanResult ws = some r :=
      find?_eq_some_of_first _ (· < ·) (scanRange ws)
        (pairwise_lt_range1 _ _) r hmem hempty hfirst
    simp [insertRow, hres]
  · intro h
    simp [insertRow, h]

theorem populate_template_insert_row_rule_witness :
    startRow wsC4 = 2 ∧ insertRow wsC4 = 3 := by
  have h := populate_template_insert_row_rule wsC4 3
  exact ⟨h.1.1 1 (by decide), h.2.1 (by decide) (by decide) (by decide)⟩

/-- C10: the max_row + 1 fallback of lines 346-347 is dead code: for
every worksheet the downward scan finds an empty description-column cell
inside its range, at a row no greater than max_row + 1. -/
theorem insert_row_scan_always_finds (ws : Worksheet) :
    (scanResult ws).isSome = true ∧ insertRow ws ≤ maxRow ws + 1 := by
  have hPw : startRow ws ≤ maxRow ws + 1 ∧
      isEmptyCell (cellValue ws (maxRow ws + 1) (descCol ws)) = true := by
    refine ⟨startRow_le ws, ?_⟩
    rw [cellValue_eq_none_of_gt ws _ _ (by omega)]
    rfl
  have hP : ∃ n, startRow ws ≤ n ∧
      isEmptyCell (cellValue ws n (descCol ws)) = true := ⟨maxRow ws + 1, hPw⟩
  have hspec := Nat.find_spec hP
  have hle : Nat.find hP ≤ maxRow ws + 1 := Nat.find_le hPw
  have hscan : scanResult ws = some (Nat.find hP) := by
    apply find?_eq_some_of_first _ (· < ·) (scanRange ws) (pairwise_lt_range1 _ _)
    · apply List.mem_range'_1.mpr
      refine ⟨hspec.1, ?_⟩
      have := startRow_le ws
      omega
    · exact hspec.2
    · intro y hy hlt
      have hy1 := List.mem_range'_1.mp hy
      have hmin := Nat.find_min hP hlt
      cases hcell : isEmptyCell (cellValue ws y (descCol ws)) with
      | false => rfl
      | true => exact absurd ⟨hy1.1, hcell⟩ hmin
  refine ⟨by rw [hscan]; rfl, ?_⟩
  rw [insertRow, hscan]
  exact hle

/-- C6: populating with an empty list of line items is the identity on
the worksheet: the copied template is saved with no cell changed. -/
theorem populate_template_empty_items_id (ws : Worksheet) :
    populate_template ws [] = ws := rfl

/-- C5 (amended): frame property of a successful population: every cell
outside the 2N target cells (rows insertRow..insertRow+N-1 in the
description column and in column 2) keeps its value.  The claim's
further assertion that no existing populated row is overwritten fails:
see the counterexample. -/
theorem populate_template_frame (ws : Worksheet) (items : List LineItem)
    (rr cc : Nat)
    (h : ∀ i < items.length,
      ¬(rr = insertRow ws + i ∧ (cc = descCol ws ∨ cc = 2))) :
    cellValue (populate_template ws items) rr cc = cellValue ws rr cc :=
  writeItems_frame items ws (insertRow ws) (descCol ws) rr cc h

theorem populate_template_frame_witness :
    cellValue (populate_template wsC5 itemsC5) 1 1 = cellValue wsC5 1 1 :=
  populate_template_frame wsC5 itemsC5 1 1 (by decide)

/-- C5 counterexample: on a template holding a formula at (2,2), one
inserted item overwrites that populated cell, because the
insertion-row search inspects only the description column. -/
theorem populate_template_overwrites_populated_cell :
    insertRow wsC5 = 2 ∧
    isEmptyCell (cellValue wsC5 2 2) = false ∧
    cellValue (populate_template wsC5 itemsC5) 2 2 =
      CellVal.num (FloatVal.finite 10000) ∧
    cellValue (populate_template wsC5 itemsC5) 2 2 ≠ cellValue wsC5 2 2 := by
  decide

/-- C2 (amended): item i's amount is written as a number to (insertRow +
i, column 2) and, provided the description column is not column 2, its
description to (insertRow + i, description column); when the description
column is column 2 the amount write overwrites the description in the
same cell (see the counterexample). -/
theorem populate_template_writes (ws : Worksheet) (items : List LineItem)
    (i : Nat) (h : i < items.length) :
    cellValue (populate_template ws items) (insertRow ws + i) 2 =
      CellVal.num (items.get ⟨i, h⟩).amount ∧
    (descCol ws ≠ 2 →
      cellValue (populate_template ws items) (insertRow ws + i) (descCol ws) =
        CellVal.str (items.get ⟨i, h⟩).description) :=
  ⟨writeItems_amount items ws (insertRow ws) (descCol ws) i h,
    fun hne => writeItems_desc items ws (insertRow ws) (descCol ws) i h hne⟩

theorem populate_template_writes_witness :
    insertRow wsC2 = 2 ∧ descCol wsC2 = 1 ∧
    cellValue (populate_template wsC2 itemsC2) (insertRow wsC2 + 0) 2 =
      CellVal.num (FloatVal.finite 10000) ∧
    cellValue (populate_template wsC2 itemsC2) (insertRow wsC2 + 0) (descCol wsC2) =
      CellVal.str "PERMITS" ∧
    cellValue (populate_template wsC2 itemsC2) (insertRow wsC2 + 1) 2 =
      CellVal.num (FloatVal.finite 15000) ∧
    cellValue (populate_template wsC2 itemsC2) (insertRow wsC2 + 1) (descCol wsC2) =
      CellVal.str "EXCAVATION" := by
  refine ⟨by decide, by decide, ?_, ?_, ?_, ?_⟩
  · exact (populate_template_writes wsC2 itemsC2 0 (by decide)).1
  · exact (populate_template_writes wsC2 itemsC2 0 (by decide)).2 (by decide)
  · exact (populate_template_writes wsC2 itemsC2 1 (by decide)).1
  · exact (populate_template_writes wsC2 itemsC2 1 (by decide)).2 (by decide)

/-- C2 counterexample: with the "Line Item" header in column 2 the
description column is column 2, and the final value of cell
(insertRow, description column) is the amount, not the description. -/
theorem populate_template_desc_col_two_overwritten :
    descCol wsC2b = 2 ∧ insertRow wsC2b = 2 ∧
    cellValue (populate_template wsC2b itemsC2) 2 2 =
      CellVal.num (FloatVal.finite 10000) ∧
    cellValue (populate_template wsC2b itemsC2) 2 2 ≠ CellVal.str "PERMITS" := by
  decide

/-- C7 counterexample: `parse_with_ai` keeps an entry with a negative
amount and a whitespace-only description, so the specification's
LineItem invariant does not hold for its output. -/
theorem parse_with_ai_invariant_violated :
    parse_with_ai (some respC7) = [⟨"", FloatVal.finite (-5)⟩] ∧
    specLineItemOk ⟨"", FloatVal.finite (-5)⟩ = false := by
  constructor
  · decide
  · decide

/-- C7 (amended): every response entry that is a dict with both keys and
a coercible amount is kept verbatim — its amount is whatever `float()`
produced (possibly negative or non-finite) and its description is the
stripped `str()` of the `line_item` field (possibly empty); no further
invariant is enforced. -/
theorem parse_with_ai_keeps_coerced_entries (l : List PyVal)
    (d : List (String × PyVal)) (li am : PyVal) (x : FloatVal)
    (hd : PyVal.dict d ∈ l) (hli : dictFind d "line_item" = some li)
    (ham : dictFind d "amount" = some am) (hx : pyFloat am = some x) :
    LineItem.mk (pyStrip (pyStr li)) x ∈ parse_with_ai (some (PyVal.list l)) := by
  show _ ∈ l.filterMap validateItem
  exact List.mem_filterMap.mpr
    ⟨PyVal.dict d, hd, by simp [validateItem, hli, ham, hx]⟩

theorem parse_with_ai_keeps_coerced_entries_witness :
    LineItem.mk (pyStrip (pyStr (PyVal.str "   "))) (FloatVal.finite (-5)) ∈
      parse_with_ai (some respC7) :=
  parse_with_ai_keeps_coerced_entries
    [PyVal.dict [("line_item", PyVal.str "   "), ("amount", PyVal.int (-5))]]
    [("line_item", PyVal.str "   "), ("amount", PyVal.int (-5))]
    (PyVal.str "   ") (PyVal.int (-5)) (FloatVal.finite (-5))
    (List.mem_cons_self _ _) rfl rfl (by decide)

/-- C8: an entry whose amount fails `float()` coercion is dropped while
the validated entries contributed by its siblings are unchanged; a
response that fails JSON parsing, or parses to a non-list, yields the
empty list instead of an exception. -/
theorem parse_with_ai_drop_and_empty (l1 l2 : List PyVal)
    (d : List (String × PyVal)) (am : PyVal) :
    (dictFind d "amount" = some am → pyFloat am = Option.none →
      parse_with_ai (some (PyVal.list (l1 ++ PyVal.dict d :: l2))) =
        parse_with_ai (some (PyVal.list (l1 ++ l2)))) ∧
    parse_with_ai Option.none = [] ∧
    (∀ v : PyVal, isListVal v = false → parse_with_ai (some v) = []) := by
  refine ⟨?_, rfl, ?_⟩
  · intro ham hfail
    have hv : validateItem (PyVal.dict d) = Option.none := by
      cases hli : dictFind d "line_item" with
      | none => simp [validateItem, hli, ham]
      | some li => simp [validateItem, hli, ham, hfail]
    show (l1 ++ PyVal.dict d :: l2).filterMap validateItem =
      (l1 ++ l2).filterMap validateItem
    rw [List.filterMap_append, List.filterMap_append]
    congr 1
    simp [List.filterMap_cons, hv]
  · intro v hv
    cases v with
    | list items => simp [isListVal] at hv
    | none => rfl
    | bool b => rfl
    | int n => rfl
    | float x => rfl
    | str s => rfl
    | dict d2 => rfl

theorem parse_with_ai_drop_and_empty_witness :
    parse_with_ai (some (PyVal.list [entryGood, PyVal.dict entriesNA, entryGood2])) =
      parse_with_ai (some (PyVal.list [entryGood, entryGood2])) ∧
    parse_with_ai (some (PyVal.list [entryGood, PyVal.dict entriesNA, entryGood2])) =
      [⟨"PERMITS", FloatVal.finite 10000⟩, ⟨"EXCAVATION", FloatVal.finite 15000⟩] := by
  constructor
  · exact (parse_with_ai_drop_and_empty [entryGood] [entryGood2] entriesNA
      (PyVal.str "N/A")).1 rfl (by decide)
  · decide

/-- C9 counterexample: a missing input file makes `extract_text_from_file`
raise `FileNotFoundError` (line 76, outside the `try`), which propagates
to the caller instead of yielding an empty result. -/
theorem extract_text_missing_file_propagates :
    extract_text_from_file envC9 "missing.pdf" =
      Except.error PyExc.fileNotFoundError := rfl

/-- C9 (amended): failures raised inside the extension dispatch — an
unsupported extension or a failing PDF sub-extractor — are caught and
yield the empty string; but a missing file raises `FileNotFoundError`
before the `try` block, and an image with OCR unavailable returns a
non-empty placeholder message, not an empty result. -/
theorem extract_text_error_behaviour (env : ExtractEnv) (p : String) :
    (env.fileExists = false →
      extract_text_from_file env p = Except.error PyExc.fileNotFoundError) ∧
    (env.fileExists = true →
      (lowerStr (pathSuffix p) ≠ ".pdf" →
        imageExts.contains (lowerStr (pathSuffix p)) = false →
        excelExts.contains (lowerStr (pathSuffix p)) = false →
        extract_text_from_file env p = Except.ok "") ∧
      (∀ e, lowerStr (pathSuffix p) = ".pdf" →
        extract_from_pdf env = Except.error e →
        extract_text_from_file env p = Except.ok "") ∧
      (imageExts.contains (lowerStr (pathSuffix p)) = true →
        env.pytesseractAvailable = false →
        extract_text_from_file env p =
          Except.ok (ocrUnavailableMsg (pathName p)) ∧
        ocrUnavailableMsg (pathName p) ≠ "")) := by
  constructor
  · intro hf
    simp [extract_text_from_file, hf]
  · intro hf
    refine ⟨?_, ?_, ?_⟩
    · intro hpdf himg hxls
      have hb : (lowerStr (pathSuffix p) == ".pdf") = false :=
        beq_eq_false_iff_ne.mpr hpdf
      have himg2 : lowerStr (pathSuffix p) ∉ imageExts := by simpa using himg
      have hxls2 : lowerStr (pathSuffix p) ∉ excelExts := by simpa using hxls
      simp [extract_text_from_file, hf, hb, himg2, hxls2]
    · intro e hpdf herr
      have hb : (lowerStr (pathSuffix p) == ".pdf") = true := by
        simp [hpdf]
      simp [extract_text_from_file, hf, hb, herr]
    · intro himg htess
      have hmem : lowerStr (pathSuffix p) ∈ imageExts := by simpa using himg
      have hpdf : (lowerStr (pathSuffix p) == ".pdf") = false := by
        apply beq_eq_false_iff_ne.mpr
        intro he
        rw [he] at hmem
        simp [imageExts] at hmem
      refine ⟨?_, ?_⟩
      · simp [extract_text_from_file, hf, hpdf, hmem, extract_from_image, htess]
      · intro he
        have := congrArg String.length he
        simp [ocrUnavailableMsg, String.length_append] at this
        exact absurd this.1.1 (by decide)

theorem extract_text_error_behaviour_witness :
    extract_text_from_file envC9ok "notes.txt" = Except.ok "" ∧
    extract_text_from_file envC9ok "Cost.pdf" = Except.ok "" ∧
    extract_text_from_file envC9ok "scan.png" =
      Except.ok (ocrUnavailableMsg (pathName "scan.png")) ∧
    ocrUnavailableMsg (pathName "scan.png") ≠ "" ∧
    extract_text_from_file envC9 "gone.pdf" =
      Except.error PyExc.fileNotFoundError := by
  refine ⟨?_, ?_, ?_, ?_, ?_⟩
  · exact ((extract_text_error_behaviour envC9ok "notes.txt").2 rfl).1
      (by decide) (by decide) (by decide)
  · exact ((extract_text_error_behaviour envC9ok "Cost.pdf").2 rfl).2.1
      PyExc.importError (by decide) rfl
  · exact (((extract_text_error_behaviour envC9ok "scan.png").2 rfl).2.2
      (by decide) rfl).1
  · exact (((extract_text_error_behaviour envC9ok "scan.png").2 rfl).2.2
      (by decide) rfl).2
  · exact (extract_text_error_behaviour envC9 "gone.pdf").1 rfl
